import Mathlib

/-!
Verification development for the APTE configuration and persistence layer
(`apte_config.py`, `firebase_client.py`).

The configuration module is a pydantic-v1 `BaseSettings` subclass.  We embed
its observable construction semantics:

* fields are validated one at a time, in declaration order;
* each field's range constraints (`gt` / `ge` / `le`) and attached
  `@validator` run at that field's position; the `values` dict passed to a
  validator holds only the fields already validated (fields declared later
  are absent, so `values.get` on them yields `none`);
* `ValueError`-style failures are collected per field and reported together
  at the end; an exception that pydantic does not catch (the
  `FileNotFoundError` raised by `validate_firebase_creds`) propagates
  immediately and aborts validation;
* environment-string decoding is abstracted: input values arrive already
  typed (`Option` marks an absent variable), floats are modelled as `Rat`.
-/

/-- ExchangeType enum (apte_config.py lines 26-29). -/
inductive ExchangeType where
  | binance
  | coinbase
  | kraken
deriving DecidableEq, Repr

/-- TradingMode enum (apte_config.py lines 32-35). -/
inductive TradingMode where
  | paper
  | live
  | backtest
deriving DecidableEq, Repr

/-- One pydantic field error: the offending field and the violated rule. -/
structure FieldError where
  field : String
  msg : String
deriving DecidableEq, Repr

/-- How construction of `APTEConfig` can fail.  The spec's `ConfigurationError`
covers every load-time failure; in the code a violated field constraint or
validator `ValueError` surfaces as a pydantic `ValidationError` carrying the
collected field errors, while the missing-credential-file check raises
`FileNotFoundError`, which pydantic does not catch. -/
inductive LoadError where
  | validationFailure (errors : List FieldError)
  | fileNotFound (msg : String)
deriving DecidableEq, Repr

/-- The raw construction input: one entry per declared field, `none` when the
corresponding environment variable / keyword is absent. -/
structure RawInput where
  EXCHANGE : Option ExchangeType := none
  EXCHANGE_API_KEY : Option String := none
  EXCHANGE_API_SECRET : Option String := none
  TRADING_MODE : Option TradingMode := none
  INITIAL_CAPITAL : Option Rat := none
  MAX_POSITION_SIZE : Option Rat := none
  MAX_DAILY_LOSS : Option Rat := none
  FIREBASE_PROJECT_ID : Option String := none
  FIREBASE_CREDENTIALS_PATH : Option String := none
  FIRESTORE_COLLECTION : Option String := none
  MODEL_UPDATE_INTERVAL_MINUTES : Option Int := none
  PREDICTION_CONFIDENCE_THRESHOLD : Option Rat := none
  DATA_SYMBOLS : Option (List String) := none
  DATA_INTERVAL_MINUTES : Option Int := none
  LOOKBACK_PERIODS : Option Int := none
  STOP_LOSS_PERCENT : Option Rat := none
  TAKE_PROFIT_PERCENT : Option Rat := none
  MAX_OPEN_POSITIONS : Option Int := none
  HEARTBEAT_INTERVAL_SECONDS : Option Int := none
  MAX_RETRIES : Option Int := none
  RETRY_DELAY_SECONDS : Option Int := none
deriving DecidableEq, Repr

/-- The validated configuration snapshot (apte_config.py lines 38-74). -/
structure APTEConfig where
  EXCHANGE : ExchangeType
  EXCHANGE_API_KEY : Option String
  EXCHANGE_API_SECRET : Option String
  TRADING_MODE : TradingMode
  INITIAL_CAPITAL : Rat
  MAX_POSITION_SIZE : Rat
  MAX_DAILY_LOSS : Rat
  FIREBASE_PROJECT_ID : String
  FIREBASE_CREDENTIALS_PATH : String
  FIRESTORE_COLLECTION : String
  MODEL_UPDATE_INTERVAL_MINUTES : Int
  PREDICTION_CONFIDENCE_THRESHOLD : Rat
  DATA_SYMBOLS : List String
  DATA_INTERVAL_MINUTES : Int
  LOOKBACK_PERIODS : Int
  STOP_LOSS_PERCENT : Rat
  TAKE_PROFIT_PERCENT : Rat
  MAX_OPEN_POSITIONS : Int
  HEARTBEAT_INTERVAL_SECONDS : Int
  MAX_RETRIES : Int
  RETRY_DELAY_SECONDS : Int
deriving DecidableEq, Repr

/-- Python truthiness of an optional string: `not v` holds for `None` and
for the empty string. -/
def pyFalsy : Option String → Bool
  | none => true
  | some s => s = ""

/-- Lines 80-85, `validate_firebase_creds`: raise `FileNotFoundError` when
`os.path.exists(v)` is false, otherwise return `v` unchanged.  The local
filesystem is modelled by the list `fs` of existing paths. -/
def validate_firebase_creds (fs : List String) (v : String) : Except String String :=
  if fs.contains v then Except.ok v
  else Except.error ("Firebase credentials file not found: " ++ v)

/-- Lines 87-92, `validate_exchange_credentials` (attached to
`EXCHANGE_API_KEY` and `EXCHANGE_API_SECRET`, `always=True`): raise
`ValueError` when `values.get('TRADING_MODE') == TradingMode.LIVE and not v`.
`valuesTradingMode` is the entry the `values` dict holds for `TRADING_MODE`
at the moment the validator runs. -/
def validate_exchange_credentials (valuesTradingMode : Option TradingMode)
    (v : Option String) : Except String (Option String) :=
  if valuesTradingMode = some TradingMode.live ∧ pyFalsy v then
    Except.error ("Exchange API credentials required for live trading")
  else Except.ok v

/-- Error list contributed by one field outcome: empty on success, the single
field error otherwise (pydantic collects one error per failing field here). -/
def errsOf {α : Type} : Except FieldError α → List FieldError
  | Except.ok _ => []
  | Except.error e => [e]

/-- A required string field (`Field(...)`): absent input is the pydantic
error `field required`. -/
def requiredStr (name : String) : Option String → Except FieldError String
  | none => Except.error ⟨name, "field required"⟩
  | some s => Except.ok s

/-- A numeric field with a decidable bound check `ok`; pydantic reports a
range violation as a field error, never clamping the value. -/
def boundedNum {α : Type} (name msg : String) (ok : α → Bool) (v : α) :
    Except FieldError α :=
  if ok v then Except.ok v else Except.error ⟨name, msg⟩

/-- The per-field error lists of all 21 fields, concatenated in declaration
order (the order pydantic reports them in its ValidationError). -/
def loadErrs (eEXCHANGE : Except FieldError ExchangeType)
    (eKEY eSECRET : Except FieldError (Option String))
    (eMODE : Except FieldError TradingMode)
    (eCAPITAL ePOSITION eDAILY : Except FieldError Rat)
    (ePROJECT ePATH eCOLLECTION : Except FieldError String)
    (eMODELUPD : Except FieldError Int)
    (eCONF : Except FieldError Rat)
    (eSYMBOLS : Except FieldError (List String))
    (eDATAINT eLOOKBACK : Except FieldError Int)
    (eSTOP eTAKE : Except FieldError Rat)
    (eMAXOPEN eHEART eRETRIES eDELAY : Except FieldError Int) :
    List FieldError :=
  errsOf eEXCHANGE ++ errsOf eKEY ++ errsOf eSECRET ++ errsOf eMODE ++
  errsOf eCAPITAL ++ errsOf ePOSITION ++ errsOf eDAILY ++ errsOf ePROJECT ++
  errsOf ePATH ++ errsOf eCOLLECTION ++ errsOf eMODELUPD ++ errsOf eCONF ++
  errsOf eSYMBOLS ++ errsOf eDATAINT ++ errsOf eLOOKBACK ++ errsOf eSTOP ++
  errsOf eTAKE ++ errsOf eMAXOPEN ++ errsOf eHEART ++ errsOf eRETRIES ++
  errsOf eDELAY

/-- Fields 10-21 (declared after `FIREBASE_CREDENTIALS_PATH`) plus the final
assembly.  Pydantic validates these only when the credentials-path validator
did not abort; afterwards it raises a `ValidationError` with the collected
errors when any field failed, else constructs the model from the validated
values. -/
def finishLoad (i : RawInput)
    (eEXCHANGE : Except FieldError ExchangeType)
    (eKEY eSECRET : Except FieldError (Option String))
    (eMODE : Except FieldError TradingMode)
    (eCAPITAL ePOSITION eDAILY : Except FieldError Rat)
    (ePROJECT ePATH : Except FieldError String) :
    Except LoadError APTEConfig :=
  -- field 10: FIRESTORE_COLLECTION, default "apte_trading"
  let eCOLLECTION : Except FieldError String :=
    Except.ok (i.FIRESTORE_COLLECTION.getD ("apte_trading"))
  -- field 11: MODEL_UPDATE_INTERVAL_MINUTES, default 60, gt=0
  let eMODELUPD : Except FieldError Int :=
    boundedNum ("MODEL_UPDATE_INTERVAL_MINUTES") ("ensure this value is greater than 0")
      (fun n => 0 < n) (i.MODEL_UPDATE_INTERVAL_MINUTES.getD 60)
  -- field 12: PREDICTION_CONFIDENCE_THRESHOLD, default 0.65 = 13/20, ge=0.5, le=1.0
  let eCONF : Except FieldError Rat :=
    boundedNum ("PREDICTION_CONFIDENCE_THRESHOLD") ("ensure this value is in range")
      (fun q => mkRat 1 2 ≤ q ∧ q ≤ 1) (i.PREDICTION_CONFIDENCE_THRESHOLD.getD (mkRat 13 20))
  -- field 13: DATA_SYMBOLS, default three pairs, no constraint attached
  let eSYMBOLS : Except FieldError (List String) :=
    Except.ok (i.DATA_SYMBOLS.getD (["BTC/USDT", "ETH/USDT", "SOL/USDT"]))
  -- field 14: DATA_INTERVAL_MINUTES, default 5, gt=0
  let eDATAINT : Except FieldError Int :=
    boundedNum ("DATA_INTERVAL_MINUTES") ("ensure this value is greater than 0")
      (fun n => 0 < n) (i.DATA_INTERVAL_MINUTES.getD 5)
  -- field 15: LOOKBACK_PERIODS, default 100, no constraint attached
  let eLOOKBACK : Except FieldError Int :=
    Except.ok (i.LOOKBACK_PERIODS.getD 100)
  -- field 16: STOP_LOSS_PERCENT, default 0.02 = 1/50, gt=0, le=0.1 = 1/10
  let eSTOP : Except FieldError Rat :=
    boundedNum ("STOP_LOSS_PERCENT") ("ensure this value is in range")
      (fun q => 0 < q ∧ q ≤ mkRat 1 10) (i.STOP_LOSS_PERCENT.getD (mkRat 1 50))
  -- field 17: TAKE_PROFIT_PERCENT, default 0.04 = 1/25, gt=0, le=0.2 = 1/5
  let eTAKE : Except FieldError Rat :=
    boundedNum ("TAKE_PROFIT_PERCENT") ("ensure this value is in range")
      (fun q => 0 < q ∧ q ≤ mkRat 1 5) (i.TAKE_PROFIT_PERCENT.getD (mkRat 1 25))
  -- field 18: MAX_OPEN_POSITIONS, default 3, gt=0
  let eMAXOPEN : Except FieldError Int :=
    boundedNum ("MAX_OPEN_POSITIONS") ("ensure this value is greater than 0")
      (fun n => 0 < n) (i.MAX_OPEN_POSITIONS.getD 3)
  -- field 19: HEARTBEAT_INTERVAL_SECONDS, default 30, gt=0
  let eHEART : Except FieldError Int :=
    boundedNum ("HEARTBEAT_INTERVAL_SECONDS") ("ensure this value is greater than 0")
      (fun n => 0 < n) (i.HEARTBEAT_INTERVAL_SECONDS.getD 30)
  -- field 20: MAX_RETRIES, default 3, no constraint attached
  let eRETRIES : Except FieldError Int :=
    Except.ok (i.MAX_RETRIES.getD 3)
  -- field 21: RETRY_DELAY_SECONDS, default 5, no constraint attached
  let eDELAY : Except FieldError Int :=
    Except.ok (i.RETRY_DELAY_SECONDS.getD 5)
  let errs : List FieldError :=
    loadErrs eEXCHANGE eKEY eSECRET eMODE eCAPITAL ePOSITION eDAILY ePROJECT
      ePATH eCOLLECTION eMODELUPD eCONF eSYMBOLS eDATAINT eLOOKBACK eSTOP
      eTAKE eMAXOPEN eHEART eRETRIES eDELAY
  if errs.isEmpty then
    (do
      let vEXCHANGE ← eEXCHANGE
      let vKEY ← eKEY
      let vSECRET ← eSECRET
      let vMODE ← eMODE
      let vCAPITAL ← eCAPITAL
      let vPOSITION ← ePOSITION
      let vDAILY ← eDAILY
      let vPROJECT ← ePROJECT
      let vPATH ← ePATH
      let vCOLLECTION ← eCOLLECTION
      let vMODELUPD ← eMODELUPD
      let vCONF ← eCONF
      let vSYMBOLS ← eSYMBOLS
      let vDATAINT ← eDATAINT
      let vLOOKBACK ← eLOOKBACK
      let vSTOP ← eSTOP
      let vTAKE ← eTAKE
      let vMAXOPEN ← eMAXOPEN
      let vHEART ← eHEART
      let vRETRIES ← eRETRIES
      let vDELAY ← eDELAY
      Except.ok
        { EXCHANGE := vEXCHANGE
          EXCHANGE_API_KEY := vKEY
          EXCHANGE_API_SECRET := vSECRET
          TRADING_MODE := vMODE
          INITIAL_CAPITAL := vCAPITAL
          MAX_POSITION_SIZE := vPOSITION
          MAX_DAILY_LOSS := vDAILY
          FIREBASE_PROJECT_ID := vPROJECT
          FIREBASE_CREDENTIALS_PATH := vPATH
          FIRESTORE_COLLECTION := vCOLLECTION
          MODEL_UPDATE_INTERVAL_MINUTES := vMODELUPD
          PREDICTION_CONFIDENCE_THRESHOLD := vCONF
          DATA_SYMBOLS := vSYMBOLS
          DATA_INTERVAL_MINUTES := vDATAINT
          LOOKBACK_PERIODS := vLOOKBACK
          STOP_LOSS_PERCENT := vSTOP
          TAKE_PROFIT_PERCENT := vTAKE
          MAX_OPEN_POSITIONS := vMAXOPEN
          HEARTBEAT_INTERVAL_SECONDS := vHEART
          MAX_RETRIES := vRETRIES
          RETRY_DELAY_SECONDS := vDELAY : APTEConfig })
      |>.mapError (fun e => LoadError.validationFailure [e])
  else Except.error (LoadError.validationFailure errs)

/-- Construction of `APTEConfig` (`APTEConfig()` / the spec's `load()`).
Fields are processed in declaration order (lines 42-74); `fs` models the set
of paths existing on the local filesystem. -/
def load (fs : List String) (i : RawInput) : Except LoadError APTEConfig :=
  -- field 1: EXCHANGE, default binance
  let eEXCHANGE : Except FieldError ExchangeType :=
    Except.ok (i.EXCHANGE.getD ExchangeType.binance)
  -- fields 2-3: EXCHANGE_API_KEY / EXCHANGE_API_SECRET, default None, with
  -- validate_exchange_credentials (always=True).  At this point the values
  -- dict holds only EXCHANGE: TRADING_MODE is declared later (line 47), so
  -- values.get of TRADING_MODE yields none here.
  let valuesTradingMode : Option TradingMode := none
  let eKEY : Except FieldError (Option String) :=
    match validate_exchange_credentials valuesTradingMode i.EXCHANGE_API_KEY with
    | Except.ok v => Except.ok v
    | Except.error m => Except.error ⟨"EXCHANGE_API_KEY", m⟩
  let eSECRET : Except FieldError (Option String) :=
    match validate_exchange_credentials valuesTradingMode i.EXCHANGE_API_SECRET with
    | Except.ok v => Except.ok v
    | Except.error m => Except.error ⟨"EXCHANGE_API_SECRET", m⟩
  -- field 4: TRADING_MODE, default paper
  let eMODE : Except FieldError TradingMode :=
    Except.ok (i.TRADING_MODE.getD TradingMode.paper)
  -- field 5: INITIAL_CAPITAL, default 10000.0, gt=0
  let eCAPITAL : Except FieldError Rat :=
    boundedNum ("INITIAL_CAPITAL") ("ensure this value is greater than 0")
      (fun q => 0 < q) (i.INITIAL_CAPITAL.getD 10000)
  -- field 6: MAX_POSITION_SIZE, default 0.1 = 1/10, ge=0, le=1
  let ePOSITION : Except FieldError Rat :=
    boundedNum ("MAX_POSITION_SIZE") ("ensure this value is in range")
      (fun q => 0 ≤ q ∧ q ≤ 1) (i.MAX_POSITION_SIZE.getD (mkRat 1 10))
  -- field 7: MAX_DAILY_LOSS, default 0.02 = 1/50, ge=0, le=0.1 = 1/10
  let eDAILY : Except FieldError Rat :=
    boundedNum ("MAX_DAILY_LOSS") ("ensure this value is in range")
      (fun q => 0 ≤ q ∧ q ≤ mkRat 1 10) (i.MAX_DAILY_LOSS.getD (mkRat 1 50))
  -- field 8: FIREBASE_PROJECT_ID, required
  let ePROJECT : Except FieldError String :=
    requiredStr ("FIREBASE_PROJECT_ID") i.FIREBASE_PROJECT_ID
  -- field 9: FIREBASE_CREDENTIALS_PATH, required, with validate_firebase_creds.
  -- A raised FileNotFoundError is not a ValueError: pydantic does not catch
  -- it, so it aborts validation immediately (fields 10-21 are never checked).
  match i.FIREBASE_CREDENTIALS_PATH with
  | none =>
      finishLoad i eEXCHANGE eKEY eSECRET eMODE eCAPITAL ePOSITION eDAILY
        ePROJECT (Except.error ⟨"FIREBASE_CREDENTIALS_PATH", "field required"⟩)
  | some p =>
      match validate_firebase_creds fs p with
      | Except.error m => Except.error (LoadError.fileNotFound m)
      | Except.ok p2 =>
          finishLoad i eEXCHANGE eKEY eSECRET eMODE eCAPITAL ePOSITION eDAILY
            ePROJECT (Except.ok p2)

/-- A filesystem on which the default credentials path exists. -/
def fs1 : List String := ["/creds/firebase.json"]

/-- A baseline input: both required fields supplied, the credentials file
existing on `fs1`, everything else left to its default. -/
def okInput : RawInput :=
  { FIREBASE_PROJECT_ID := some ("apte-project")
    FIREBASE_CREDENTIALS_PATH := some ("/creds/firebase.json") }

/-- The snapshot `load fs1 okInput` produces: every defaulted field carries
its declared default. -/
def okSnap : APTEConfig :=
  { EXCHANGE := ExchangeType.binance
    EXCHANGE_API_KEY := none
    EXCHANGE_API_SECRET := none
    TRADING_MODE := TradingMode.paper
    INITIAL_CAPITAL := 10000
    MAX_POSITION_SIZE := mkRat 1 10
    MAX_DAILY_LOSS := mkRat 1 50
    FIREBASE_PROJECT_ID := "apte-project"
    FIREBASE_CREDENTIALS_PATH := "/creds/firebase.json"
    FIRESTORE_COLLECTION := "apte_trading"
    MODEL_UPDATE_INTERVAL_MINUTES := 60
    PREDICTION_CONFIDENCE_THRESHOLD := mkRat 13 20
    DATA_SYMBOLS := ["BTC/USDT", "ETH/USDT", "SOL/USDT"]
    DATA_INTERVAL_MINUTES := 5
    LOOKBACK_PERIODS := 100
    STOP_LOSS_PERCENT := mkRat 1 50
    TAKE_PROFIT_PERCENT := mkRat 1 25
    MAX_OPEN_POSITIONS := 3
    HEARTBEAT_INTERVAL_SECONDS := 30
    MAX_RETRIES := 3
    RETRY_DELAY_SECONDS := 5 }

/-- Sanity: the baseline input loads to the all-defaults snapshot. -/
theorem load_okInput : load fs1 okInput = Except.ok okSnap := rfl


/-- C1: with TRADING_MODE = live, valid Firebase settings and both exchange
credentials absent, construction succeeds and returns a snapshot whose
credentials are None — the claimed failure does not happen.  The credential
validator (lines 87-92) reads `values.get('TRADING_MODE')`, but the
credential fields (lines 43-44) are declared before TRADING_MODE (line 47),
so at validation time the values dict has no TRADING_MODE entry and the
live-mode test never fires.  The last conjunct shows the check the code
intended: had the validator seen the live mode, it would have raised.  The
paper-mode half of the claim does hold (second conjunct). -/
theorem C1_live_missing_creds_loads :
    load fs1 { okInput with TRADING_MODE := some TradingMode.live }
      = Except.ok { okSnap with TRADING_MODE := TradingMode.live } ∧
    load fs1 { okInput with TRADING_MODE := some TradingMode.paper }
      = Except.ok { okSnap with TRADING_MODE := TradingMode.paper } ∧
    okSnap.EXCHANGE_API_KEY = none ∧
    validate_exchange_credentials (some TradingMode.live) none
      = Except.error ("Exchange API credentials required for live trading") :=
  ⟨rfl, rfl, rfl, rfl⟩

/-- C2 counterexample: LOOKBACK_PERIODS, MAX_RETRIES and RETRY_DELAY_SECONDS
carry no declared bound in the code (lines 64, 73-74), so the negative values
-5, -1 and -2 — outside the bounds the claim lists for them — are accepted
and stored unchanged. -/
theorem C2_counterexample :
    load fs1 { okInput with LOOKBACK_PERIODS := some (-5),
                            MAX_RETRIES := some (-1),
                            RETRY_DELAY_SECONDS := some (-2) }
      = Except.ok { okSnap with LOOKBACK_PERIODS := -5, MAX_RETRIES := -1,
                                RETRY_DELAY_SECONDS := -2 } := rfl

/-- Concrete bound facts for the defaulted fields, used to evaluate `load`
when a single field is symbolic. -/
@[simp] theorem bnd_position_le : (mkRat 1 10 : Rat) ≤ 1 := by decide

/-- Default MAX_POSITION_SIZE is non-negative. -/
@[simp] theorem bnd_position_nn : (0 : Rat) ≤ mkRat 1 10 := by decide

/-- Default MAX_DAILY_LOSS is below its upper bound. -/
@[simp] theorem bnd_daily_le : (mkRat 1 50 : Rat) ≤ mkRat 1 10 := by decide

/-- Default MAX_DAILY_LOSS is non-negative. -/
@[simp] theorem bnd_daily_nn : (0 : Rat) ≤ mkRat 1 50 := by decide

/-- Default confidence threshold is above its lower bound. -/
@[simp] theorem bnd_conf_ge : (mkRat 1 2 : Rat) ≤ mkRat 13 20 := by decide

/-- Default confidence threshold is below its upper bound. -/
@[simp] theorem bnd_conf_le : (mkRat 13 20 : Rat) ≤ 1 := by decide

/-- Default STOP_LOSS_PERCENT is positive. -/
@[simp] theorem bnd_stop_pos : (0 : Rat) < mkRat 1 50 := by decide

/-- Default TAKE_PROFIT_PERCENT is positive. -/
@[simp] theorem bnd_take_pos : (0 : Rat) < mkRat 1 25 := by decide

/-- Default TAKE_PROFIT_PERCENT is below its upper bound. -/
@[simp] theorem bnd_take_le : (mkRat 1 25 : Rat) ≤ mkRat 1 5 := by decide

/-- C2 amended: for each numeric field carrying a declared bound in the code
(`gt` / `ge` / `le` arguments, lines 48-72), construction fails exactly when
the supplied value lies outside the bound, succeeds on inclusive boundary
values, and stores the supplied value unchanged (no clamping); but
LOOKBACK_PERIODS, MAX_RETRIES and RETRY_DELAY_SECONDS carry no bound at all
(lines 64, 73-74) — every integer, including negative ones, is accepted for
them. -/
theorem C2_bounds_amended (cap pos dl conf sl tp : Rat)
    (mui di lb mop hb mr rd : Int) :
    (load fs1 { okInput with INITIAL_CAPITAL := some cap }
      = if 0 < cap then Except.ok { okSnap with INITIAL_CAPITAL := cap }
        else Except.error (LoadError.validationFailure
          [⟨"INITIAL_CAPITAL", "ensure this value is greater than 0"⟩])) ∧
    (load fs1 { okInput with MAX_POSITION_SIZE := some pos }
      = if 0 ≤ pos ∧ pos ≤ 1 then Except.ok { okSnap with MAX_POSITION_SIZE := pos }
        else Except.error (LoadError.validationFailure
          [⟨"MAX_POSITION_SIZE", "ensure this value is in range"⟩])) ∧
    (load fs1 { okInput with MAX_DAILY_LOSS := some dl }
      = if 0 ≤ dl ∧ dl ≤ mkRat 1 10 then Except.ok { okSnap with MAX_DAILY_LOSS := dl }
        else Except.error (LoadError.validationFailure
          [⟨"MAX_DAILY_LOSS", "ensure this value is in range"⟩])) ∧
    (load fs1 { okInput with MODEL_UPDATE_INTERVAL_MINUTES := some mui }
      = if 0 < mui then Except.ok { okSnap with MODEL_UPDATE_INTERVAL_MINUTES := mui }
        else Except.error (LoadError.validationFailure
          [⟨"MODEL_UPDATE_INTERVAL_MINUTES", "ensure this value is greater than 0"⟩])) ∧
    (load fs1 { okInput with PREDICTION_CONFIDENCE_THRESHOLD := some conf }
      = if mkRat 1 2 ≤ conf ∧ conf ≤ 1 then
          Except.ok { okSnap with PREDICTION_CONFIDENCE_THRESHOLD := conf }
        else Except.error (LoadError.validationFailure
          [⟨"PREDICTION_CONFIDENCE_THRESHOLD", "ensure this value is in range"⟩])) ∧
    (load fs1 { okInput with DATA_INTERVAL_MINUTES := some di }
      = if 0 < di then Except.ok { okSnap with DATA_INTERVAL_MINUTES := di }
        else Except.error (LoadError.validationFailure
          [⟨"DATA_INTERVAL_MINUTES", "ensure this value is greater than 0"⟩])) ∧
    (load fs1 { okInput with STOP_LOSS_PERCENT := some sl }
      = if 0 < sl ∧ sl ≤ mkRat 1 10 then Except.ok { okSnap with STOP_LOSS_PERCENT := sl }
        else Except.error (LoadError.validationFailure
          [⟨"STOP_LOSS_PERCENT", "ensure this value is in range"⟩])) ∧
    (load fs1 { okInput with TAKE_PROFIT_PERCENT := some tp }
      = if 0 < tp ∧ tp ≤ mkRat 1 5 then Except.ok { okSnap with TAKE_PROFIT_PERCENT := tp }
        else Except.error (LoadError.validationFailure
          [⟨"TAKE_PROFIT_PERCENT", "ensure this value is in range"⟩])) ∧
    (load fs1 { okInput with MAX_OPEN_POSITIONS := some mop }
      = if 0 < mop then Except.ok { okSnap with MAX_OPEN_POSITIONS := mop }
        else Except.error (LoadError.validationFailure
          [⟨"MAX_OPEN_POSITIONS", "ensure this value is greater than 0"⟩])) ∧
    (load fs1 { okInput with HEARTBEAT_INTERVAL_SECONDS := some hb }
      = if 0 < hb then Except.ok { okSnap with HEARTBEAT_INTERVAL_SECONDS := hb }
        else Except.error (LoadError.validationFailure
          [⟨"HEARTBEAT_INTERVAL_SECONDS", "ensure this value is greater than 0"⟩])) ∧
    (load fs1 { okInput with LOOKBACK_PERIODS := some lb }
      = Except.ok { okSnap with LOOKBACK_PERIODS := lb }) ∧
    (load fs1 { okInput with MAX_RETRIES := some mr }
      = Except.ok { okSnap with MAX_RETRIES := mr }) ∧
    (load fs1 { okInput with RETRY_DELAY_SECONDS := some rd }
      = Except.ok { okSnap with RETRY_DELAY_SECONDS := rd }) := by
  refine ⟨?_, ?_, ?_, ?_, ?_, ?_, ?_, ?_, ?_, ?_, ?_, ?_, ?_⟩ <;>
  first
  | (split_ifs with h <;>
      simp [load, finishLoad, loadErrs, boundedNum, errsOf, requiredStr,
        validate_firebase_creds, validate_exchange_credentials, pyFalsy,
        fs1, okInput, okSnap, h, bind, Except.bind, Except.mapError, pure,
        Except.pure])
  | simp [load, finishLoad, loadErrs, boundedNum, errsOf, requiredStr,
      validate_firebase_creds, validate_exchange_credentials, pyFalsy,
      fs1, okInput, okSnap, bind, Except.bind, Except.mapError, pure,
      Except.pure]

/-- C3: when the supplied FIREBASE_CREDENTIALS_PATH is not an existing file,
construction fails with the FileNotFoundError naming the missing file (a
load-time failure, the spec's ConfigurationError); when the file exists, the
check passes, returns the path unchanged, and the baseline input loads with
that path stored. -/
theorem C3_creds_file_check (fs : List String) (p : String) :
    (p ∉ fs →
      load fs { okInput with FIREBASE_CREDENTIALS_PATH := some p }
        = Except.error (LoadError.fileNotFound
            ("Firebase credentials file not found: " ++ p))) ∧
    (p ∈ fs →
      validate_firebase_creds fs p = Except.ok p ∧
      load fs { okInput with FIREBASE_CREDENTIALS_PATH := some p }
        = Except.ok { okSnap with FIREBASE_CREDENTIALS_PATH := p }) := by
  constructor
  · intro h
    simp [load, validate_firebase_creds, okInput, h]
  · intro h
    refine ⟨by simp [validate_firebase_creds, h], ?_⟩
    simp [load, finishLoad, loadErrs, boundedNum, errsOf, requiredStr,
      validate_firebase_creds, validate_exchange_credentials, pyFalsy,
      okInput, okSnap, h, bind, Except.bind, Except.mapError, pure,
      Except.pure]

/-- C3 witness: the file-existence check evaluated on a filesystem without
the path, and on one with it. -/
theorem C3_creds_file_check_witness :
    load [] { okInput with FIREBASE_CREDENTIALS_PATH := some ("missing.json") }
      = Except.error (LoadError.fileNotFound
          ("Firebase credentials file not found: missing.json")) ∧
    (validate_firebase_creds fs1 "/creds/firebase.json"
        = Except.ok "/creds/firebase.json" ∧
      load fs1 { okInput with FIREBASE_CREDENTIALS_PATH := some ("/creds/firebase.json") }
        = Except.ok { okSnap with FIREBASE_CREDENTIALS_PATH := "/creds/firebase.json" }) :=
  ⟨(C3_creds_file_check [] ("missing.json")).1 (by decide),
   (C3_creds_file_check fs1 ("/creds/firebase.json")).2 (by decide)⟩

/-- Modelled from the spec: `load` as §4.1 words its validation order —
stage (1) per-field type/range coercion for every field, then stage (2) the
file-existence check on the coerced credential path, then stage (3) the
cross-field check that live mode has both credential strings present and
non-empty.  Written only to be compared with `load`, whose actual order is
per-field declaration order with each validator at its field's position. -/
def load_specOrder (fs : List String) (i : RawInput) : Except LoadError APTEConfig :=
  let stage1 : Except LoadError APTEConfig :=
    finishLoad i (Except.ok (i.EXCHANGE.getD ExchangeType.binance))
      (Except.ok i.EXCHANGE_API_KEY) (Except.ok i.EXCHANGE_API_SECRET)
      (Except.ok (i.TRADING_MODE.getD TradingMode.paper))
      (boundedNum ("INITIAL_CAPITAL") ("ensure this value is greater than 0")
        (fun q => 0 < q) (i.INITIAL_CAPITAL.getD 10000))
      (boundedNum ("MAX_POSITION_SIZE") ("ensure this value is in range")
        (fun q => 0 ≤ q ∧ q ≤ 1) (i.MAX_POSITION_SIZE.getD (mkRat 1 10)))
      (boundedNum ("MAX_DAILY_LOSS") ("ensure this value is in range")
        (fun q => 0 ≤ q ∧ q ≤ mkRat 1 10) (i.MAX_DAILY_LOSS.getD (mkRat 1 50)))
      (requiredStr ("FIREBASE_PROJECT_ID") i.FIREBASE_PROJECT_ID)
      (requiredStr ("FIREBASE_CREDENTIALS_PATH") i.FIREBASE_CREDENTIALS_PATH)
  match stage1 with
  | Except.error e => Except.error e
  | Except.ok c =>
      match validate_firebase_creds fs c.FIREBASE_CREDENTIALS_PATH with
      | Except.error m => Except.error (LoadError.fileNotFound m)
      | Except.ok _ =>
          if c.TRADING_MODE = TradingMode.live ∧
              (pyFalsy c.EXCHANGE_API_KEY ∨ pyFalsy c.EXCHANGE_API_SECRET) then
            Except.error (LoadError.validationFailure
              [⟨"EXCHANGE_API_KEY",
                "Exchange API credentials required for live trading"⟩])
          else Except.ok c

set_option maxHeartbeats 1000000 in
/-- C4 counterexample: on the input with TRADING_MODE = live and absent
credentials, the spec's claimed order (cross-field live check last, after
TRADING_MODE has been coerced) rejects the input, but the code accepts it —
so construction does not follow the claimed order.  The credential validator
actually runs at the credential fields' declaration positions (2-3), before
TRADING_MODE (position 4) is parsed. -/
theorem C4_counterexample :
    load fs1 { okInput with TRADING_MODE := some TradingMode.live }
      = Except.ok { okSnap with TRADING_MODE := TradingMode.live } ∧
    load_specOrder fs1 { okInput with TRADING_MODE := some TradingMode.live }
      = Except.error (LoadError.validationFailure
          [⟨"EXCHANGE_API_KEY",
            "Exchange API credentials required for live trading"⟩]) :=
  ⟨rfl, rfl⟩

/-- C4 amended: validation runs field by field in declaration order, each
attached validator at its own field's position.  Consequences proved here:
(1) the live-mode credential check, running before TRADING_MODE is parsed,
sees no trading mode — construction succeeds with absent credentials in
every mode; (2) the file-existence check aborts validation when it fires, so
an out-of-range field declared after the path (HEARTBEAT_INTERVAL_SECONDS =
0) is never reported; (3) the abort even outranks a range error collected at
an earlier field (INITIAL_CAPITAL = -1). -/
theorem C4_field_order_amended (m : TradingMode) :
    load fs1 { okInput with TRADING_MODE := some m }
      = Except.ok { okSnap with TRADING_MODE := m } ∧
    load [] { okInput with HEARTBEAT_INTERVAL_SECONDS := some 0 }
      = Except.error (LoadError.fileNotFound
          ("Firebase credentials file not found: /creds/firebase.json")) ∧
    load [] { okInput with INITIAL_CAPITAL := some (-1) }
      = Except.error (LoadError.fileNotFound
          ("Firebase credentials file not found: /creds/firebase.json")) := by
  refine ⟨?_, rfl, rfl⟩
  cases m <;> rfl

/-- C5 counterexample: an empty DATA_SYMBOLS list is accepted — the field
(line 62) has no non-emptiness constraint, so construction succeeds and the
snapshot carries the empty symbol list. -/
theorem C5_counterexample :
    load fs1 { okInput with DATA_SYMBOLS := some [] }
      = Except.ok { okSnap with DATA_SYMBOLS := [] } := rfl

/-- C5 amended: the stored symbol list equals the supplied one element for
element — duplicates kept, order preserved, nothing deduplicated — but no
non-emptiness check exists: every list, the empty one included, is
accepted. -/
theorem C5_symbols_amended (ls : List String) :
    load fs1 { okInput with DATA_SYMBOLS := some ls }
      = Except.ok { okSnap with DATA_SYMBOLS := ls } := by
  simp [load, finishLoad, loadErrs, boundedNum, errsOf, requiredStr,
    validate_firebase_creds, validate_exchange_credentials, pyFalsy,
    fs1, okInput, okSnap, bind, Except.bind, Except.mapError, pure,
    Except.pure]

/-- Pydantic model-level options.  The source's inner Config class can set
allow_mutation; leaving it unset keeps pydantic's default True. -/
structure ModelConfigOptions where
  env_file : Option String
  case_sensitive : Bool
  allow_mutation : Bool
deriving DecidableEq, Repr

/-- The inner Config class (lines 76-78) sets only env_file = ".env" and
case_sensitive = True; allow_mutation keeps its default True. -/
def configOptions : ModelConfigOptions :=
  { env_file := some (".env"), case_sensitive := true, allow_mutation := true }

/-- Pydantic BaseModel field assignment: `snapshot.FIELD = v` raises a
TypeError iff the model's Config sets allow_mutation = False, and otherwise
stores the new value.  Shown at the INITIAL_CAPITAL field. -/
def assignINITIAL_CAPITAL (c : APTEConfig) (v : Rat) : Except String APTEConfig :=
  if configOptions.allow_mutation then Except.ok { c with INITIAL_CAPITAL := v }
  else Except.error ("TypeError: APTEConfig is immutable")

/-- C6 counterexample: assigning INITIAL_CAPITAL := 1 on the loaded snapshot
is not rejected — it succeeds and the subsequent read returns 1, not the
construction-time 10000: the Config class never sets allow_mutation = False,
so the snapshot is not a read-only object. -/
theorem C6_counterexample :
    assignINITIAL_CAPITAL okSnap 1 = Except.ok { okSnap with INITIAL_CAPITAL := 1 } ∧
    ({ okSnap with INITIAL_CAPITAL := 1 }).INITIAL_CAPITAL ≠ okSnap.INITIAL_CAPITAL :=
  ⟨rfl, by decide⟩

/-- C6 amended: with allow_mutation at its default True, field assignment on
a constructed snapshot always succeeds, and a read after the assignment
returns the newly assigned value. -/
theorem C6_mutation_amended (c : APTEConfig) (v : Rat) :
    assignINITIAL_CAPITAL c v = Except.ok { c with INITIAL_CAPITAL := v } ∧
    ({ c with INITIAL_CAPITAL := v }).INITIAL_CAPITAL = v :=
  ⟨rfl, rfl⟩

/-- The process-wide state backing the FirebaseClient singleton:
`instanceRef` models the class attribute `_instance` (line 26, `None` before
first construction), and `nextId` is an allocation counter giving each newly
created Python object a distinct identity. -/
structure SingletonState where
  instanceRef : Option Nat
  nextId : Nat
deriving DecidableEq, Repr

/-- FirebaseClient.__new__ (lines 29-32): when `_instance is None` a new
object is allocated and stored in `_instance`; otherwise the stored object
is returned and nothing is created.  Returns the identity of the returned
object together with the state after the call. -/
def FirebaseClient_new (s : SingletonState) : Nat × SingletonState :=
  match s.instanceRef with
  | some i => (i, s)
  | none => (s.nextId, { instanceRef := some s.nextId, nextId := s.nextId + 1 })

/-- C7: repeated requests return the identical single instance — after any
call of `FirebaseClient()`, every further call returns the very same object
identity and leaves the state unchanged (no second object is ever
allocated). -/
theorem C7_singleton_new (s : SingletonState) (i1 : Nat) (s1 : SingletonState)
    (h : FirebaseClient_new s = (i1, s1)) :
    FirebaseClient_new s1 = (i1, s1) := by
  cases s with
  | mk ref ctr =>
      cases ref with
      | some i =>
          simp only [FirebaseClient_new, Prod.mk.injEq] at h
          obtain ⟨h1, h2⟩ := h
          subst h1
          subst h2
          simp [FirebaseClient_new]
      | none =>
          simp only [FirebaseClient_new, Prod.mk.injEq] at h
          obtain ⟨h1, h2⟩ := h
          subst h1
          subst h2
          simp [FirebaseClient_new]

/-- C7 witness: from the fresh process state the first call allocates object
0, and the second call returns object 0 with the state unchanged. -/
theorem C7_singleton_new_witness :
    FirebaseClient_new { instanceRef := some 0, nextId := 1 }
      = (0, { instanceRef := some 0, nextId := 1 }) :=
  C7_singleton_new { instanceRef := none, nextId := 0 } 0
    { instanceRef := some 0, nextId := 1 } rfl

/-- Lifecycle states of the persistence client (spec §4.2).  The transient
in-call Initializing phase is the execution of `clientCall` itself on an
uninitialized client; the stored states between calls are these three. -/
inductive ClientState where
  | uninitialized
  | ready
  | failed
deriving DecidableEq, Repr

/-- What one call on the client reports back to its caller. -/
inductive CallOutcome where
  | okReady
  | fatalError
deriving DecidableEq, Repr

/-- Modelled from the spec: the failure branch of `FirebaseClient.__init__`
is absent from the source (firebase_client.py ends mid-initialization at
line 45, before any except clause or the write of `_initialized`), so the
success/failure bookkeeping is taken from spec §4.2: a first call either
reaches Ready or moves to Failed; Failed is terminal for the process — a
later call returns a fatal error without re-attempting initialization, and a
Ready client stays Ready (the `_initialized` guard at line 35 skips
re-initialization).  `backendOk` says whether the backend would accept an
initialization attempt made during this call. -/
def clientCall (backendOk : Bool) : ClientState → ClientState × CallOutcome
  | ClientState.uninitialized =>
      if backendOk then (ClientState.ready, CallOutcome.okReady)
      else (ClientState.failed, CallOutcome.fatalError)
  | ClientState.ready => (ClientState.ready, CallOutcome.okReady)
  | ClientState.failed => (ClientState.failed, CallOutcome.fatalError)

/-- C8: Failed is terminal — a call on a failed client yields a fatal error
and does not consult the backend (so no re-initialization is attempted, even
if the backend has recovered), and any sequence of further calls leaves the
client Failed forever. -/
theorem C8_failed_terminal :
    (∀ b : Bool, clientCall b ClientState.failed
        = (ClientState.failed, CallOutcome.fatalError)) ∧
    (∀ b c : Bool, clientCall b ClientState.failed = clientCall c ClientState.failed) ∧
    (∀ bs : List Bool,
      bs.foldl (fun st b => (clientCall b st).1) ClientState.failed
        = ClientState.failed) := by
  refine ⟨fun b => rfl, fun b c => rfl, fun bs => ?_⟩
  induction bs with
  | nil => rfl
  | cons b bs ih => simpa [clientCall] using ih

/-- Kinds of backend faults a write attempt can hit (spec glossary):
transient faults (network blip, rate limiting) are retryable; non-transient
faults (permission denied, invalid argument) are not. -/
inductive FaultKind where
  | transient
  | nonTransient
deriving DecidableEq, Repr

/-- Result of a write call on a Ready client. -/
inductive WriteResult where
  | ok (docId : String)
  | operationFailure
  | immediateFailure
deriving DecidableEq, Repr

/-- Modelled from the spec: the write/retry loop of the persistence client
is absent from the source (firebase_client.py is cut off before any
operation), so it is taken from spec §4.2/§8: a write retries on transient
backend errors up to MAX_RETRIES attempts with a fixed
RETRY_DELAY_SECONDS delay between attempts, succeeds with the document id
once an attempt hits no fault, raises PersistenceOperationError
(`operationFailure`) when transient faults persist through the whole budget,
and fails immediately without retry on a non-transient fault
(`immediateFailure`).  `faults` lists the faults hit by successive attempts
(an attempt beyond the list succeeds); the returned list records the delay
slept before each re-attempt. -/
def retryWrite (delaySec : Nat) (docId : String) :
    Nat → List FaultKind → WriteResult × List Nat
  | 0, _ => (WriteResult.operationFailure, [])
  | _ + 1, [] => (WriteResult.ok docId, [])
  | _ + 1, FaultKind.nonTransient :: _ => (WriteResult.immediateFailure, [])
  | n + 1, FaultKind.transient :: rest =>
      match n with
      | 0 => (WriteResult.operationFailure, [])
      | m + 1 =>
          let r := retryWrite delaySec docId (m + 1) rest
          (r.1, delaySec :: r.2)

/-- C9: under the write retry policy, a run hitting transient faults on its
first `t` attempts returns the document id once the fault ceases within the
budget of `maxR` attempts, with exactly one fixed delay slept between
consecutive attempts; it fails with PersistenceOperationError when the
transient fault persists through every attempt; and a non-transient fault
fails immediately, with no retry and no delay. -/
theorem C9_retry_policy (maxR t delaySec : Nat) (docId : String)
    (rest : List FaultKind) :
    (t < maxR →
      retryWrite delaySec docId maxR (List.replicate t FaultKind.transient)
        = (WriteResult.ok docId, List.replicate t delaySec)) ∧
    (maxR ≤ t →
      (retryWrite delaySec docId maxR
          (List.replicate t FaultKind.transient)).1
        = WriteResult.operationFailure) ∧
    (0 < maxR →
      retryWrite delaySec docId maxR (FaultKind.nonTransient :: rest)
        = (WriteResult.immediateFailure, [])) := by
  induction t generalizing maxR with
  | zero =>
      refine ⟨fun h => ?_, fun h => ?_, fun h => ?_⟩
      · obtain ⟨m, rfl⟩ : ∃ m, maxR = m + 1 :=
          ⟨maxR - 1, by omega⟩
        simp [retryWrite]
      · obtain rfl : maxR = 0 := by omega
        simp [retryWrite]
      · obtain ⟨m, rfl⟩ : ∃ m, maxR = m + 1 :=
          ⟨maxR - 1, by omega⟩
        simp [retryWrite]
  | succ t ih =>
      refine ⟨fun h => ?_, fun h => ?_, fun h => ?_⟩
      · obtain ⟨m, rfl⟩ : ∃ m, maxR = m + 2 :=
          ⟨maxR - 2, by omega⟩
        have hrec := (ih (m + 1)).1 (by omega)
        simp [List.replicate_succ, retryWrite, hrec]
      · obtain ⟨m, rfl⟩ | rfl : (∃ m, maxR = m + 1) ∨ maxR = 0 := by
          rcases maxR with _ | m
          · exact Or.inr rfl
          · exact Or.inl ⟨m, rfl⟩
        · cases m with
          | zero => simp [List.replicate_succ, retryWrite]
          | succ k =>
              have hrec := (ih (k + 1)).2.1 (by omega)
              simp [List.replicate_succ, retryWrite, hrec]
        · simp [retryWrite]
      · obtain ⟨m, rfl⟩ : ∃ m, maxR = m + 1 :=
          ⟨maxR - 1, by omega⟩
        simp [retryWrite]

/-- C9 witness: with the configured budget MAX_RETRIES = 3 and delay
RETRY_DELAY_SECONDS = 5 from the loaded snapshot, a write whose first
attempt hits a transient fault succeeds on the second attempt after one
5-second delay; transient faults on 5 consecutive attempts exhaust the
budget; a non-transient fault fails at once with no delay. -/
theorem C9_retry_policy_witness :
    okSnap.MAX_RETRIES = 3 ∧ okSnap.RETRY_DELAY_SECONDS = 5 ∧
    retryWrite 5 ("doc1") 3 (List.replicate 1 FaultKind.transient)
      = (WriteResult.ok ("doc1"), List.replicate 1 5) ∧
    (retryWrite 5 ("doc1") 3 (List.replicate 5 FaultKind.transient)).1
      = WriteResult.operationFailure ∧
    retryWrite 5 ("doc1") 3 (FaultKind.nonTransient :: [])
      = (WriteResult.immediateFailure, []) :=
  ⟨rfl, rfl,
   (C9_retry_policy 3 1 5 ("doc1") []).1 (by omega),
   (C9_retry_policy 3 5 5 ("doc1") []).2.1 (by omega),
   (C9_retry_policy 3 0 5 ("doc1") []).2.2 (by omega)⟩

/-- Whether a field outcome is a success. -/
def fieldOk {α : Type} : Except FieldError α → Bool
  | Except.ok _ => true
  | Except.error _ => false

/-- A field's contributed error list is empty exactly when it validated. -/
theorem errsOf_isEmpty {α : Type} (e : Except FieldError α) :
    (errsOf e).isEmpty = fieldOk e := by
  cases e <;> rfl

/-- Emptiness of an append of field-error lists. -/
theorem isEmpty_append_fe (l l2 : List FieldError) :
    (l ++ l2).isEmpty = (l.isEmpty && l2.isEmpty) := by
  cases l <;> simp

/-- The assembly step yields some error once the collected error list is
known to be non-empty. -/
theorem exists_error_of_isEmpty_false (errs : List FieldError)
    (x : Except LoadError APTEConfig) (h : errs.isEmpty = false) :
    ∃ e, (if errs.isEmpty then x
          else Except.error (LoadError.validationFailure errs))
      = Except.error e := by
  rw [h]
  exact ⟨_, rfl⟩

/-- When the required FIREBASE_PROJECT_ID or FIREBASE_CREDENTIALS_PATH field
failed, the assembly stage reports a validation error whatever the other
fields did. -/
theorem finishLoad_error_of_req (i : RawInput)
    (eE : Except FieldError ExchangeType)
    (eK eS : Except FieldError (Option String))
    (eM : Except FieldError TradingMode)
    (eC ePos eD : Except FieldError Rat)
    (ePR ePA : Except FieldError String)
    (h : fieldOk ePR = false ∨ fieldOk ePA = false) :
    ∃ e, finishLoad i eE eK eS eM eC ePos eD ePR ePA = Except.error e := by
  have hE : ∀ eCOLLECTION eMODELUPD eCONF eSYMBOLS eDATAINT eLOOKBACK eSTOP
      eTAKE eMAXOPEN eHEART eRETRIES eDELAY,
      (loadErrs eE eK eS eM eC ePos eD ePR ePA eCOLLECTION eMODELUPD eCONF
        eSYMBOLS eDATAINT eLOOKBACK eSTOP eTAKE eMAXOPEN eHEART eRETRIES
        eDELAY).isEmpty = false := by
    intro eCOLLECTION eMODELUPD eCONF eSYMBOLS eDATAINT eLOOKBACK eSTOP
      eTAKE eMAXOPEN eHEART eRETRIES eDELAY
    rcases h with h | h <;>
      simp [loadErrs, isEmpty_append_fe, errsOf_isEmpty, h]
  simp only [finishLoad]
  exact exists_error_of_isEmpty_false _ _ (hE _ _ _ _ _ _ _ _ _ _ _ _)

/-- apte_config.py line 96: module-level `config = APTEConfig()` — importing
the configuration module runs the one and only construction, so any
construction failure is raised at import time. -/
def import_apte_config (fs : List String) (i : RawInput) :
    Except LoadError APTEConfig :=
  load fs i

/-- firebase_client.py line 18: `from apte_config import config` — importing
the persistence module first imports the configuration module, triggering
that same single load, so a configuration failure aborts this import too. -/
def import_firebase_client (fs : List String) (i : RawInput) :
    Except LoadError APTEConfig :=
  import_apte_config fs i

set_option maxHeartbeats 1000000 in
/-- C10: importing the persistence module triggers exactly the configuration
module's load, and FIREBASE_PROJECT_ID and FIREBASE_CREDENTIALS_PATH have no
defaults — on any input (hence in every trading mode) with either unset,
the module imports fail with a load-time error. -/
theorem C10_import_failure (fs : List String) (i : RawInput)
    (h : i.FIREBASE_PROJECT_ID = none ∨ i.FIREBASE_CREDENTIALS_PATH = none) :
    import_firebase_client fs i = import_apte_config fs i ∧
    import_apte_config fs i = load fs i ∧
    ∃ e, load fs i = Except.error e := by
  refine ⟨rfl, rfl, ?_⟩
  rcases hp : i.FIREBASE_CREDENTIALS_PATH with _ | p
  · simp only [load, hp]
    exact finishLoad_error_of_req _ _ _ _ _ _ _ _ _ _ (Or.inr rfl)
  · rcases h with h | h
    · simp only [load, hp]
      rcases hv : validate_firebase_creds fs p with m | p2 <;> simp only [hv]
      · exact ⟨_, rfl⟩
      · exact finishLoad_error_of_req _ _ _ _ _ _ _ _ _ _
          (Or.inl (by rw [h]; rfl))
    · rw [hp] at h
      cases h

set_option maxHeartbeats 1000000 in
/-- C10 witness: with FIREBASE_PROJECT_ID unset in live mode, importing the
persistence module fails at load time. -/
theorem C10_import_failure_witness :
    import_firebase_client fs1
        { okInput with FIREBASE_PROJECT_ID := none,
                       TRADING_MODE := some TradingMode.live }
      = import_apte_config fs1
        { okInput with FIREBASE_PROJECT_ID := none,
                       TRADING_MODE := some TradingMode.live } ∧
    import_apte_config fs1
        { okInput with FIREBASE_PROJECT_ID := none,
                       TRADING_MODE := some TradingMode.live }
      = load fs1
        { okInput with FIREBASE_PROJECT_ID := none,
                       TRADING_MODE := some TradingMode.live } ∧
    ∃ e, load fs1
        { okInput with FIREBASE_PROJECT_ID := none,
                       TRADING_MODE := some TradingMode.live }
      = Except.error e :=
  C10_import_failure fs1
    { okInput with FIREBASE_PROJECT_ID := none,
                   TRADING_MODE := some TradingMode.live }
    (Or.inl rfl)
